import Mathlib

set_option maxRecDepth 40000

/-!
Shallow embedding of the n8n-nodes-telegram-multi validation and
request-construction layer (nodes/TelegramMulti/GenericFunctions.ts and
nodes/TelegramMulti/TelegramMulti.node.ts), together with proofs of the
specification claims about it.

Strings are modelled by Lean `String` (a list of characters in this core
version); JavaScript string falsiness (`!s`) is emptiness, and the falsy
number is `0`.  Request bodies (JavaScript objects built with spreads) are
ordered key-value lists observed through a last-entry-wins lookup, which
matches the lookup semantics of an object literal with a trailing spread.
-/

/-- JSON-like values appearing in Telegram request bodies. -/
inductive Value where
  | str (s : String)
  | int (n : Int)
  | bool (b : Bool)
  deriving DecidableEq, Repr

/-- A request body: ordered key-value list, later entries shadow earlier ones. -/
abbrev Obj := List (String × Value)

/-- Lookup in a body: the last entry for a key wins, matching the lookup
semantics of a JavaScript object literal with spreads. -/
def getKey : Obj → String → Option Value
  | [], _ => none
  | (k, v) :: rest, key =>
    match getKey rest key with
    | some w => some w
    | none => if k = key then some v else none

/-- JavaScript property assignment `o[key] = v`: replaces the value at an
existing key, appends otherwise. -/
def setKey (o : Obj) (key : String) (v : Value) : Obj :=
  if o.any (fun p => p.1 == key) then
    o.map (fun p => if p.1 == key then (key, v) else p)
  else o ++ [(key, v)]

/-- A chat identifier as it arrives from JavaScript: a number or a string
(the TypeScript parameter type is `string | number`). -/
inductive ChatId where
  | num (n : Int)
  | str (s : String)
  deriving DecidableEq, Repr

/-- The chat id as placed into the request body (kept as-is by the source). -/
def chatIdVal : ChatId → Value
  | .num n => .int n
  | .str s => .str s

/-- JavaScript `chatId.toString()`. -/
def chatIdToString : ChatId → String
  | .num n => toString n
  | .str s => s

/-- JavaScript string falsiness: only the empty string is falsy. -/
def strFalsy (s : String) : Bool := s.toList.isEmpty

/-- JavaScript falsiness of a `string | number` value: `0` and `""` are falsy. -/
def chatIdFalsy : ChatId → Bool
  | .num n => n == 0
  | .str s => strFalsy s

/-- Test of the regex `^-?\d+$` used by `validateChatId` (an optional leading
minus sign followed by one or more ASCII digits). -/
def isIntegerString (s : String) : Bool :=
  match s.toList with
  | [] => false
  | c :: rest =>
    if c = '-' then !rest.isEmpty && rest.all Char.isDigit
    else c.isDigit && rest.all Char.isDigit

/-- A character allowed after the leading letter of a Telegram username:
`[a-zA-Z0-9_]`. -/
def isUsernameChar (c : Char) : Bool := c.isAlpha || c.isDigit || c == '_'

/-- Test of the regex `^@[a-zA-Z][a-zA-Z0-9_]{4,31}$` used by `validateChatId`:
the first character must be `@`, the second a letter, and the remaining 4 to
31 characters letters, digits or underscores. -/
def isValidUsername (s : String) : Bool :=
  (s.toList.head? == some '@') &&
    (s.toList.tail.head?.elim false Char.isAlpha) &&
    s.toList.tail.tail.all isUsernameChar &&
    decide (4 ≤ s.toList.tail.tail.length) && decide (s.toList.tail.tail.length ≤ 31)

/-- `validateChatId` from GenericFunctions.ts: a falsy value is rejected;
a number, or a string that is purely a (possibly negative) integer, is
accepted; a string starting with `@` is accepted iff it matches the
username regex; everything else is rejected. -/
def validateChatId (chatId : ChatId) : Bool :=
  if chatIdFalsy chatId then false
  else if (match chatId with | .num _ => true | .str s => isIntegerString s) then true
  else
    match chatId with
    | .num _ => false
    | .str s => if s.toList.head? = some '@' then isValidUsername s else false

/-- A character of the token secret: `[A-Za-z0-9_-]`. -/
def isTokenSecretChar (c : Char) : Bool := c.isAlpha || c.isDigit || c == '_' || c == '-'

/-- `validateBotToken` from GenericFunctions.ts: a falsy value is rejected,
otherwise the token must match `^[0-9]{8,10}:[A-Za-z0-9_-]{30,45}$`.
Since neither a digit nor a secret character is `:`, the anchored regex
matches exactly when the maximal digit prefix has length 8 to 10, is
followed by `:`, and the remainder is 30 to 45 secret characters. -/
def validateBotToken (token : String) : Bool :=
  if strFalsy token then false
  else
    let ds := token.toList.takeWhile Char.isDigit
    let rest := token.toList.dropWhile Char.isDigit
    decide (8 ≤ ds.length) && decide (ds.length ≤ 10) &&
      (rest.head? == some ':') && rest.tail.all isTokenSecretChar &&
      decide (30 ≤ rest.tail.length) && decide (rest.tail.length ≤ 45)

/-- Global single-character replacement, the semantics of
`text.replace(/c/g, rep)` for a one-character pattern and a replacement
containing no special sequences. -/
def replaceChar (target : Char) (rep : List Char) : List Char → List Char
  | [] => []
  | c :: rest => (if c = target then rep else [c]) ++ replaceChar target rep rest

/-- Whitespace removed by JavaScript `trim()` (the ASCII portion, which is
all that matters for the entity-escaped output considered here). -/
def jsWhitespace (c : Char) : Bool :=
  c == ' ' || c == '\t' || c == '\n' || c == '\r' || c == '\x0b' || c == '\x0c'

/-- `trim()`: drop whitespace from both ends. -/
def trimList (l : List Char) : List Char :=
  ((l.dropWhile jsWhitespace).reverse.dropWhile jsWhitespace).reverse

/-- The apostrophe character escaped by `sanitizeText`. -/
def apos : Char := Char.ofNat 39

/-- The five chained global replacements of `sanitizeText`, then `trim()`:
`&` to `&amp;`, `<` to `&lt;`, `>` to `&gt;`, `"` to `&quot;`, the
apostrophe to `&#x27;`. -/
def sanitizeTextList (l : List Char) : List Char :=
  trimList
    (replaceChar apos ['&', '#', 'x', '2', '7', ';']
      (replaceChar '"' ['&', 'q', 'u', 'o', 't', ';']
        (replaceChar '>' ['&', 'g', 't', ';']
          (replaceChar '<' ['&', 'l', 't', ';']
            (replaceChar '&' ['&', 'a', 'm', 'p', ';'] l)))))

/-- `sanitizeText` from GenericFunctions.ts: a falsy input yields `""`,
otherwise the five escapes are applied in order and the result trimmed. -/
def sanitizeText (text : String) : String :=
  if strFalsy text then ""
  else String.mk (sanitizeTextList text.toList)

/-- The errors thrown by the node (each `NodeOperationError` / `NodeApiError`
site of the source gets one constructor; payloads are the values interpolated
into the thrown message). -/
inductive TgError where
  | invalidChatId (chatId : String)
  | emptyText
  | textTooLong (len : Nat)
  | invalidMessageId
  | missingPhoto
  | missingDocument
  | captionTooLong (kind : String) (len : Nat)
  | missingToken
  | invalidTokenFormat
  | unknownAuthMethod (m : String)
  | transportError (msg : String)
  deriving DecidableEq, Repr

/-- The `error.message` string of each thrown error, as interpolated at the
throw site in the source. -/
def TgError.message : TgError → String
  | .invalidChatId c => "Invalid chat ID: " ++ c ++ ". Use numeric ID or @username format."
  | .emptyText => "Message text cannot be empty"
  | .textTooLong n =>
      "Message text is too long (" ++ toString n ++ " characters). Maximum is 4096 characters."
  | .invalidMessageId => "Valid message ID is required"
  | .missingPhoto => "Photo URL or file_id is required"
  | .missingDocument => "Document URL or file_id is required"
  | .captionTooLong kind n =>
      kind ++ " caption is too long (" ++ toString n ++ " characters). Maximum is 1024 characters."
  | .missingToken => "Bot token is required"
  | .invalidTokenFormat => "Invalid bot token format"
  | .unknownAuthMethod m => "Invalid authentication method: " ++ m
  | .transportError m => m

/-- The HTTP call descriptor handed to the transport (`IHttpRequestOptions`
restricted to the fields the source actually varies). -/
structure Request where
  method : String
  url : String
  body : Obj
  deriving DecidableEq, Repr

/-- The request-building part of `telegramApiRequest`: validate the token,
then build the call descriptor with the token embedded in the URL.  A
returned `Request` is exactly one transport invocation; an `error` result
means the transport is never invoked. -/
def telegramApiRequest (method endpoint : String) (body : Obj) (botToken : String) :
    Except TgError Request :=
  if strFalsy botToken then .error .missingToken
  else if validateBotToken botToken = false then .error .invalidTokenFormat
  else .ok { method := method,
             url := "https://api.telegram.org/bot" ++ botToken ++ endpoint,
             body := body }

/-- `sendMessage` from GenericFunctions.ts. -/
def sendMessage (chatId : ChatId) (text : String) (botToken : String)
    (additionalFields : Obj) : Except TgError Request :=
  if validateChatId chatId = false then
    .error (.invalidChatId (chatIdToString chatId))
  else
    let sanitizedText := sanitizeText text
    if strFalsy sanitizedText then .error .emptyText
    else if 4096 < sanitizedText.length then .error (.textTooLong sanitizedText.length)
    else
      telegramApiRequest "POST" "/sendMessage"
        ([("chat_id", chatIdVal chatId), ("text", Value.str sanitizedText)] ++ additionalFields)
        botToken

/-- `sendPhoto` from GenericFunctions.ts.  The caption lives inside the
additional fields that were already spread into the body; it is sanitized
and length-checked only when it is a truthy string. -/
def sendPhoto (chatId : ChatId) (photo : String) (botToken : String)
    (additionalFields : Obj) : Except TgError Request :=
  if validateChatId chatId = false then
    .error (.invalidChatId (chatIdToString chatId))
  else if strFalsy photo then .error .missingPhoto
  else
    let body := [("chat_id", chatIdVal chatId), ("photo", Value.str photo)] ++ additionalFields
    match getKey body "caption" with
    | some (Value.str c) =>
      if strFalsy c then telegramApiRequest "POST" "/sendPhoto" body botToken
      else
        let c' := sanitizeText c
        if 1024 < c'.length then .error (.captionTooLong "Photo" c'.length)
        else telegramApiRequest "POST" "/sendPhoto" (setKey body "caption" (Value.str c')) botToken
    | _ => telegramApiRequest "POST" "/sendPhoto" body botToken

/-- `sendDocument` from GenericFunctions.ts (same shape as `sendPhoto`). -/
def sendDocument (chatId : ChatId) (document : String) (botToken : String)
    (additionalFields : Obj) : Except TgError Request :=
  if validateChatId chatId = false then
    .error (.invalidChatId (chatIdToString chatId))
  else if strFalsy document then .error .missingDocument
  else
    let body := [("chat_id", chatIdVal chatId), ("document", Value.str document)] ++ additionalFields
    match getKey body "caption" with
    | some (Value.str c) =>
      if strFalsy c then telegramApiRequest "POST" "/sendDocument" body botToken
      else
        let c' := sanitizeText c
        if 1024 < c'.length then .error (.captionTooLong "Document" c'.length)
        else
          telegramApiRequest "POST" "/sendDocument" (setKey body "caption" (Value.str c')) botToken
    | _ => telegramApiRequest "POST" "/sendDocument" body botToken

/-- `getChat` from GenericFunctions.ts. -/
def getChat (chatId : ChatId) (botToken : String) : Except TgError Request :=
  if validateChatId chatId = false then
    .error (.invalidChatId (chatIdToString chatId))
  else telegramApiRequest "POST" "/getChat" [("chat_id", chatIdVal chatId)] botToken

/-- `getChatAdministrators` from GenericFunctions.ts. -/
def getChatAdministrators (chatId : ChatId) (botToken : String) : Except TgError Request :=
  if validateChatId chatId = false then
    .error (.invalidChatId (chatIdToString chatId))
  else telegramApiRequest "POST" "/getChatAdministrators" [("chat_id", chatIdVal chatId)] botToken

/-- A message-id argument as it arrives from JavaScript: the TypeScript type
is `number`, but the source guards `typeof messageId !== 'number'` at
runtime, so a string or a missing value must be representable. -/
inductive JsArg where
  | num (n : Int)
  | str (s : String)
  | missing
  deriving DecidableEq, Repr

/-- The guard `messageId && typeof messageId === 'number'` of the source
(`0` is falsy, strings and missing values fail the `typeof` test). -/
def isValidMessageIdArg : JsArg → Bool
  | .num n => !(n == 0)
  | .str _ => false
  | .missing => false

/-- The message id as placed into the request body. -/
def jsArgVal : JsArg → Value
  | .num n => .int n
  | .str s => .str s
  | .missing => .int 0

/-- `editMessage` from GenericFunctions.ts. -/
def editMessage (chatId : ChatId) (messageId : JsArg) (text : String) (botToken : String)
    (additionalFields : Obj) : Except TgError Request :=
  if validateChatId chatId = false then
    .error (.invalidChatId (chatIdToString chatId))
  else if isValidMessageIdArg messageId = false then .error .invalidMessageId
  else
    let sanitizedText := sanitizeText text
    if strFalsy sanitizedText then .error .emptyText
    else if 4096 < sanitizedText.length then .error (.textTooLong sanitizedText.length)
    else
      telegramApiRequest "POST" "/editMessageText"
        ([("chat_id", chatIdVal chatId), ("message_id", jsArgVal messageId),
          ("text", Value.str sanitizedText)] ++ additionalFields)
        botToken

/-- `deleteMessage` from GenericFunctions.ts. -/
def deleteMessage (chatId : ChatId) (messageId : JsArg) (botToken : String) :
    Except TgError Request :=
  if validateChatId chatId = false then
    .error (.invalidChatId (chatIdToString chatId))
  else if isValidMessageIdArg messageId = false then .error .invalidMessageId
  else
    telegramApiRequest "POST" "/deleteMessage"
      [("chat_id", chatIdVal chatId), ("message_id", jsArgVal messageId)] botToken

/-- One input record of `TelegramMulti.execute`: the node parameters and the
credential lookup result for one item index. -/
structure Item where
  authMethod : String
  credentialToken : String
  envToken : String
  directToken : String
  resource : String
  operation : String
  chatId : ChatId
  text : String
  messageId : JsArg
  photo : String
  document : String
  additionalFields : Obj

/-- The `switch (authMethod)` of `execute`: resolve the bot token from the
selected source, or fail on an unknown method. -/
def resolveToken (it : Item) : Except TgError String :=
  if it.authMethod == "credentials" then .ok it.credentialToken
  else if it.authMethod == "environment" then .ok it.envToken
  else if it.authMethod == "direct" then .ok it.directToken
  else .error (.unknownAuthMethod it.authMethod)

/-- The resource/operation dispatch of `execute`.  `tr` is the transport:
it consumes the built `Request` and produces the parsed API response (or a
transport/API failure).  An unmatched resource/operation pair leaves
`responseData` at its initial `{}`. -/
def runOperation (tr : Request → Except TgError Obj) (it : Item) (botToken : String) :
    Except TgError Obj :=
  if it.resource == "message" then
    if it.operation == "send" then
      (sendMessage it.chatId it.text botToken it.additionalFields).bind tr
    else if it.operation == "edit" then
      (editMessage it.chatId it.messageId it.text botToken it.additionalFields).bind tr
    else if it.operation == "delete" then
      (deleteMessage it.chatId it.messageId botToken).bind tr
    else .ok []
  else if it.resource == "photo" then
    if it.operation == "send" then
      (sendPhoto it.chatId it.photo botToken it.additionalFields).bind tr
    else .ok []
  else if it.resource == "document" then
    if it.operation == "send" then
      (sendDocument it.chatId it.document botToken it.additionalFields).bind tr
    else .ok []
  else if it.resource == "chat" then
    if it.operation == "get" then
      (getChat it.chatId botToken).bind tr
    else if it.operation == "getAdministrators" then
      (getChatAdministrators it.chatId botToken).bind tr
    else .ok []
  else .ok []

/-- The body of the per-item `try` block of `execute`: resolve the token,
check it, and dispatch. -/
def processItem (tr : Request → Except TgError Obj) (it : Item) : Except TgError Obj :=
  match resolveToken it with
  | .error e => .error e
  | .ok botToken =>
    if strFalsy botToken then .error .missingToken
    else if validateBotToken botToken = false then .error .invalidTokenFormat
    else runOperation tr it botToken

/-- One output record pushed by `execute`: the json payload and the
`pairedItem` index. -/
structure OutRecord where
  json : Obj
  pairedItem : Nat
  deriving DecidableEq, Repr

/-- The item loop of `execute`: on failure with `continueOnFail` enabled an
error record is pushed and processing continues; with it disabled the
exception propagates, aborting the loop. -/
def executeLoop (tr : Request → Except TgError Obj) (continueOnFail : Bool) :
    Nat → List Item → Except TgError (List OutRecord)
  | _, [] => .ok []
  | i, it :: rest =>
    match processItem tr it with
    | .ok data =>
      match executeLoop tr continueOnFail (i + 1) rest with
      | .ok out => .ok ({ json := data, pairedItem := i } :: out)
      | .error e => .error e
    | .error e =>
      if continueOnFail then
        match executeLoop tr continueOnFail (i + 1) rest with
        | .ok out =>
          .ok ({ json := [("error", Value.str e.message)], pairedItem := i } :: out)
        | .error e2 => .error e2
      else .error e

/-- `TelegramMulti.execute` over a batch of input items. -/
def execute (tr : Request → Except TgError Obj) (continueOnFail : Bool)
    (items : List Item) : Except TgError (List OutRecord) :=
  executeLoop tr continueOnFail 0 items

/-- The record `execute` emits for the item at index `i`: the response data
on success, `{ error: <message> }` on failure. -/
def recordFor (tr : Request → Except TgError Obj) (i : Nat) (it : Item) : OutRecord :=
  match processItem tr it with
  | .ok data => { json := data, pairedItem := i }
  | .error e => { json := [("error", Value.str e.message)], pairedItem := i }

/-- The expected batch output under continue-on-failure: one record per item,
in input order, starting at index `i`. -/
def batchOut (tr : Request → Except TgError Obj) : Nat → List Item → List OutRecord
  | _, [] => []
  | i, it :: rest => recordFor tr i it :: batchOut tr (i + 1) rest

/-- The first per-item failure in a batch, if any. -/
def firstFailure (tr : Request → Except TgError Obj) : List Item → Option TgError
  | [] => none
  | it :: rest =>
    match processItem tr it with
    | .error e => some e
    | .ok _ => firstFailure tr rest

/-- The seven resource/operation pairs `execute` dispatches on. -/
def handledPair (r op : String) : Bool :=
  (r == "message" && (op == "send" || op == "edit" || op == "delete")) ||
  (r == "photo" && op == "send") ||
  (r == "document" && op == "send") ||
  (r == "chat" && (op == "get" || op == "getAdministrators"))

/-- Spec-side shape of an integer-like string: an optional leading minus sign
followed by one or more ASCII digits. -/
def IntLikeStr (s : String) : Prop :=
  ∃ ds : List Char, ds ≠ [] ∧ (∀ c ∈ ds, c.isDigit = true) ∧
    (s.toList = ds ∨ s.toList = '-' :: ds)

/-- Spec-side shape of a valid `@username`: `@`, a letter, then 4 to 31
letters, digits or underscores. -/
def UsernameShape (s : String) : Prop :=
  ∃ (c : Char) (rest : List Char), s.toList = '@' :: c :: rest ∧ c.isAlpha = true ∧
    (∀ d ∈ rest, isUsernameChar d = true) ∧ 4 ≤ rest.length ∧ rest.length ≤ 31

/-- Spec-side shape of a valid bot token, the language of
`^\d{8,10}:[A-Za-z0-9_-]{30,45}$`: 8 to 10 digits, a colon, then 30 to 45
characters drawn from letters, digits, underscore and hyphen. -/
def TokenShape (s : String) : Prop :=
  ∃ a b : List Char, s.toList = a ++ ':' :: b ∧
    (∀ c ∈ a, c.isDigit = true) ∧ 8 ≤ a.length ∧ a.length ≤ 10 ∧
    (∀ c ∈ b, isTokenSecretChar c = true) ∧ 30 ≤ b.length ∧ b.length ≤ 45

/-- Projection used by the C2 counterexample: the `chat_id` the built request
would send, if a request was built at all. -/
def builtChatId (r : Except TgError Request) : Option Value :=
  match r with
  | .ok req => getKey req.body "chat_id"
  | .error _ => none

/-- A concrete input item with a valid direct token and the unhandled
resource/operation pair message/forward, used as a witness input. -/
def itemW : Item :=
  { authMethod := "direct"
    credentialToken := ""
    envToken := ""
    directToken := "123456789:abcDEF012345678901234567890123"
    resource := "message"
    operation := "forward"
    chatId := ChatId.str "@abcde"
    text := "hi"
    messageId := JsArg.num 5
    photo := ""
    document := ""
    additionalFields := [] }

theorem isIntegerString_iff (s : String) : isIntegerString s = true ↔ IntLikeStr s := by
  unfold isIntegerString IntLikeStr
  rcases h : s.toList with _ | ⟨c, rest⟩
  · simp only [h]
    constructor
    · intro hh; cases hh
    · rintro ⟨ds, hne, _, (h1 | h1)⟩
      · exact absurd h1.symm hne
      · cases h1
  · simp only [h]
    by_cases hc : c = '-'
    · subst hc
      rw [if_pos rfl]
      simp only [Bool.and_eq_true, Bool.not_eq_true', List.isEmpty_eq_false,
        List.all_eq_true]
      constructor
      · rintro ⟨hne, hdig⟩
        exact ⟨rest, hne, hdig, Or.inr rfl⟩
      · rintro ⟨ds, hne, hdig, (h1 | h1)⟩
        · exfalso
          have hd : Char.isDigit '-' = true := by
            apply hdig; rw [← h1]; simp
          simp [Char.isDigit] at hd
        · obtain rfl : rest = ds := by injection h1
          exact ⟨hne, hdig⟩
    · rw [if_neg hc]
      simp only [Bool.and_eq_true, List.all_eq_true]
      constructor
      · rintro ⟨hcd, hdig⟩
        refine ⟨c :: rest, by simp, ?_, Or.inl rfl⟩
        intro x hx
        rcases List.mem_cons.mp hx with rfl | hx
        · exact hcd
        · exact hdig x hx
      · rintro ⟨ds, hne, hdig, (h1 | h1)⟩
        · subst h1
          exact ⟨hdig c (by simp), fun x hx => hdig x (by simp [hx])⟩
        · injection h1 with h2 h3
          exact absurd h2 hc

theorem isValidUsername_iff (s : String) : isValidUsername s = true ↔ UsernameShape s := by
  unfold isValidUsername UsernameShape
  rcases h : s.toList with _ | ⟨c0, _ | ⟨c1, rest⟩⟩
  · simp [h]
  · simp [h]
  · simp only [h, List.head?_cons, List.tail_cons, Option.elim_some, List.all_eq_true,
      Bool.and_eq_true, beq_iff_eq, Option.some.injEq, decide_eq_true_eq]
    constructor
    · rintro ⟨⟨⟨⟨hc0, hc1⟩, hall⟩, h4⟩, h31⟩
      subst hc0
      exact ⟨c1, rest, rfl, hc1, hall, h4, h31⟩
    · rintro ⟨c, rest', heq, halpha, hall, h4, h31⟩
      injection heq with e1 e2
      injection e2 with e3 e4
      subst e1; subst e3; subst e4
      exact ⟨⟨⟨⟨rfl, halpha⟩, hall⟩, h4⟩, h31⟩

theorem takeWhile_dropWhile_append (p : Char → Bool) (a : List Char) (y : Char) (b : List Char)
    (ha : ∀ x ∈ a, p x = true) (hy : p y = false) :
    (a ++ y :: b).takeWhile p = a ∧ (a ++ y :: b).dropWhile p = y :: b := by
  induction a with
  | nil => simp [List.takeWhile_cons, List.dropWhile_cons, hy]
  | cons c a ih =>
    have hc : p c = true := ha c (by simp)
    have ha' : ∀ x ∈ a, p x = true := fun x hx => ha x (by simp [hx])
    obtain ⟨h1, h2⟩ := ih ha'
    simp [List.takeWhile_cons, List.dropWhile_cons, hc, h1, h2]

/-- Claim C8: `validateBotToken` returns true exactly for the strings in the
language of `^\d{8,10}:[A-Za-z0-9_-]{30,45}$`; every other string (empty,
wrong digit count, wrong secret length or character set) is rejected. -/
theorem validateBotToken_characterization (s : String) :
    validateBotToken s = true ↔ TokenShape s := by
  constructor
  · intro hval
    unfold validateBotToken strFalsy at hval
    by_cases he : s.toList.isEmpty
    · rw [if_pos he] at hval; cases hval
    · rw [if_neg he] at hval
      simp only [Bool.and_eq_true, beq_iff_eq, decide_eq_true_eq, List.all_eq_true] at hval
      obtain ⟨⟨⟨⟨⟨h8, h10⟩, hcol⟩, hsec⟩, h30⟩, h45⟩ := hval
      rcases hr : s.toList.dropWhile Char.isDigit with _ | ⟨c, secret⟩
      · rw [hr] at hcol; cases hcol
      · rw [hr] at hcol hsec h30 h45
        simp only [List.head?_cons, Option.some.injEq] at hcol
        subst hcol
        simp only [List.tail_cons] at hsec h30 h45
        refine ⟨s.toList.takeWhile Char.isDigit, secret, ?_, ?_, h8, h10, hsec, h30, h45⟩
        · conv_lhs => rw [← List.takeWhile_append_dropWhile Char.isDigit s.toList]
          rw [hr]
        · intro x hx; exact List.mem_takeWhile_imp hx
  · rintro ⟨a, b, heq, hdig, h8, h10, hsec, h30, h45⟩
    obtain ⟨ht, hd⟩ :=
      takeWhile_dropWhile_append Char.isDigit a ':' b hdig (by decide)
    have hne : s.toList.isEmpty = false := by
      rw [heq]; cases a <;> simp
    unfold validateBotToken strFalsy
    have hne' : s.toList.isEmpty ≠ true := by rw [hne]; simp
    rw [if_neg hne']
    rw [heq, ht, hd]
    simp only [List.head?_cons, List.tail_cons, Bool.and_eq_true, beq_iff_eq,
      decide_eq_true_eq, List.all_eq_true]
    exact ⟨⟨⟨⟨⟨h8, h10⟩, trivial⟩, hsec⟩, h30⟩, h45⟩

/-- Claim C1 (counterexample): the claim says every integer chat id is
accepted, but the source first rejects every falsy `chatId`, and the number
`0` is falsy in JavaScript, so `validateChatId(0)` returns false. -/
theorem validateChatId_zero_counterexample : validateChatId (ChatId.num 0) ≠ true := by decide

/-- Claim C1 (amended): `validateChatId` accepts exactly the nonzero integers,
the integer-like strings (optionally negative, including `"0"`), and the
strings of shape `@` + letter + 4 to 31 letters/digits/underscores; the
integer `0` (falsy in JavaScript) and every other input are rejected. -/
theorem validateChatId_characterization (c : ChatId) :
    validateChatId c = true ↔
      ((∃ n : Int, c = ChatId.num n ∧ n ≠ 0) ∨
       (∃ s, c = ChatId.str s ∧ (IntLikeStr s ∨ UsernameShape s))) := by
  cases c with
  | num n =>
    by_cases h : n = 0
    · subst h
      simp [validateChatId, chatIdFalsy]
    · simp [validateChatId, chatIdFalsy, h]
  | str s =>
    simp only [validateChatId, chatIdFalsy]
    by_cases he : strFalsy s = true
    · rw [if_pos he]
      have hsl : s.toList = [] := by
        unfold strFalsy at he
        simpa using he
      constructor
      · intro hh; cases hh
      · rintro (⟨n, hn, _⟩ | ⟨s', hs', hshape⟩)
        · cases hn
        · injection hs' with hss
          subst hss
          rcases hshape with ⟨ds, hne, _, (h1 | h1)⟩ | ⟨c0, rest, h1, _⟩
          · rw [hsl] at h1; exact absurd h1.symm hne
          · rw [hsl] at h1; cases h1
          · rw [hsl] at h1; cases h1
    · rw [if_neg he]
      by_cases hi : isIntegerString s = true
      · rw [if_pos hi]
        simp only [true_iff]
        exact Or.inr ⟨s, rfl, Or.inl ((isIntegerString_iff s).mp hi)⟩
      · rw [if_neg hi]
        by_cases ha : s.toList.head? = some '@'
        · rw [if_pos ha]
          constructor
          · intro hu
            exact Or.inr ⟨s, rfl, Or.inr ((isValidUsername_iff s).mp hu)⟩
          · rintro (⟨n, hn, _⟩ | ⟨s', hs', hshape⟩)
            · cases hn
            · injection hs' with hss
              subst hss
              rcases hshape with hint | husr
              · exact absurd ((isIntegerString_iff s).mpr hint) hi
              · exact (isValidUsername_iff s).mpr husr
        · rw [if_neg ha]
          constructor
          · intro hh; cases hh
          · rintro (⟨n, hn, _⟩ | ⟨s', hs', hshape⟩)
            · cases hn
            · injection hs' with hss
              subst hss
              rcases hshape with hint | ⟨c0, rest, h1, _⟩
              · exact absurd ((isIntegerString_iff s).mpr hint) hi
              · rw [h1] at ha
                simp at ha

/-- Claim C9: `sanitizeText` is not idempotent: re-sanitizing an output that
contains an ampersand escapes the `&` of the already-produced entity again,
witnessed by the string consisting of a single `&`. -/
theorem sanitizeText_not_idempotent :
    ∃ x : String, ('&' ∈ x.toList) ∧ sanitizeText (sanitizeText x) ≠ sanitizeText x := by
  refine ⟨"&", by decide, by decide⟩

theorem telegramApiRequest_cases (m e : String) (b : Obj) (tok : String) :
    telegramApiRequest m e b tok = .error .missingToken ∨
    telegramApiRequest m e b tok = .error .invalidTokenFormat ∨
    telegramApiRequest m e b tok =
      .ok { method := m, url := "https://api.telegram.org/bot" ++ tok ++ e, body := b } := by
  unfold telegramApiRequest
  split
  · exact Or.inl rfl
  · split
    · exact Or.inr (Or.inl rfl)
    · exact Or.inr (Or.inr rfl)

theorem sendMessage_no_invalidChatId (chatId : ChatId) (t tok : String) (extra : Obj)
    (hv : validateChatId chatId = true) (c : String) :
    sendMessage chatId t tok extra ≠ .error (.invalidChatId c) := by
  intro h
  simp only [sendMessage] at h
  rw [if_neg (by simp [hv])] at h
  split at h
  · simp at h
  · split at h
    · simp at h
    · rcases telegramApiRequest_cases "POST" "/sendMessage"
        ([("chat_id", chatIdVal chatId), ("text", Value.str (sanitizeText t))] ++ extra) tok
        with h1 | h1 | h1 <;> rw [h1] at h <;> simp at h

theorem editMessage_no_invalidChatId (chatId : ChatId) (mid : JsArg) (t tok : String) (extra : Obj)
    (hv : validateChatId chatId = true) (c : String) :
    editMessage chatId mid t tok extra ≠ .error (.invalidChatId c) := by
  intro h
  simp only [editMessage] at h
  rw [if_neg (by simp [hv])] at h
  split at h
  · simp at h
  · split at h
    · simp at h
    · split at h
      · simp at h
      · rcases telegramApiRequest_cases "POST" "/editMessageText"
          ([("chat_id", chatIdVal chatId), ("message_id", jsArgVal mid),
            ("text", Value.str (sanitizeText t))] ++ extra) tok
          with h1 | h1 | h1 <;> rw [h1] at h <;> simp at h

theorem deleteMessage_no_invalidChatId (chatId : ChatId) (mid : JsArg) (tok : String)
    (hv : validateChatId chatId = true) (c : String) :
    deleteMessage chatId mid tok ≠ .error (.invalidChatId c) := by
  intro h
  simp only [deleteMessage] at h
  rw [if_neg (by simp [hv])] at h
  split at h
  · simp at h
  · rcases telegramApiRequest_cases "POST" "/deleteMessage"
      [("chat_id", chatIdVal chatId), ("message_id", jsArgVal mid)] tok
      with h1 | h1 | h1 <;> rw [h1] at h <;> simp at h

theorem sendPhoto_no_invalidChatId (chatId : ChatId) (photo tok : String) (extra : Obj)
    (hv : validateChatId chatId = true) (c : String) :
    sendPhoto chatId photo tok extra ≠ .error (.invalidChatId c) := by
  intro h
  simp only [sendPhoto] at h
  rw [if_neg (by simp [hv])] at h
  split at h
  · simp at h
  · split at h
    · split at h
      · rcases telegramApiRequest_cases "POST" "/sendPhoto"
          ([("chat_id", chatIdVal chatId), ("photo", Value.str photo)] ++ extra) tok
          with h1 | h1 | h1 <;> rw [h1] at h <;> simp at h
      · split at h
        · simp at h
        · rcases telegramApiRequest_cases "POST" "/sendPhoto"
            (setKey ([("chat_id", chatIdVal chatId), ("photo", Value.str photo)] ++ extra)
              "caption" (Value.str (sanitizeText _))) tok
            with h1 | h1 | h1 <;> rw [h1] at h <;> simp at h
    · rcases telegramApiRequest_cases "POST" "/sendPhoto"
        ([("chat_id", chatIdVal chatId), ("photo", Value.str photo)] ++ extra) tok
        with h1 | h1 | h1 <;> rw [h1] at h <;> simp at h

theorem sendDocument_no_invalidChatId (chatId : ChatId) (document tok : String) (extra : Obj)
    (hv : validateChatId chatId = true) (c : String) :
    sendDocument chatId document tok extra ≠ .error (.invalidChatId c) := by
  intro h
  simp only [sendDocument] at h
  rw [if_neg (by simp [hv])] at h
  split at h
  · simp at h
  · split at h
    · split at h
      · rcases telegramApiRequest_cases "POST" "/sendDocument"
          ([("chat_id", chatIdVal chatId), ("document", Value.str document)] ++ extra) tok
          with h1 | h1 | h1 <;> rw [h1] at h <;> simp at h
      · split at h
        · simp at h
        · rcases telegramApiRequest_cases "POST" "/sendDocument"
            (setKey ([("chat_id", chatIdVal chatId), ("document", Value.str document)] ++ extra)
              "caption" (Value.str (sanitizeText _))) tok
            with h1 | h1 | h1 <;> rw [h1] at h <;> simp at h
    · rcases telegramApiRequest_cases "POST" "/sendDocument"
        ([("chat_id", chatIdVal chatId), ("document", Value.str document)] ++ extra) tok
        with h1 | h1 | h1 <;> rw [h1] at h <;> simp at h

theorem getChat_no_invalidChatId (chatId : ChatId) (tok : String)
    (hv : validateChatId chatId = true) (c : String) :
    getChat chatId tok ≠ .error (.invalidChatId c) := by
  intro h
  simp only [getChat] at h
  rw [if_neg (by simp [hv])] at h
  rcases telegramApiRequest_cases "POST" "/getChat" [("chat_id", chatIdVal chatId)] tok
    with h1 | h1 | h1 <;> rw [h1] at h <;> simp at h

theorem getChatAdministrators_no_invalidChatId (chatId : ChatId) (tok : String)
    (hv : validateChatId chatId = true) (c : String) :
    getChatAdministrators chatId tok ≠ .error (.invalidChatId c) := by
  intro h
  simp only [getChatAdministrators] at h
  rw [if_neg (by simp [hv])] at h
  rcases telegramApiRequest_cases "POST" "/getChatAdministrators" [("chat_id", chatIdVal chatId)] tok
    with h1 | h1 | h1 <;> rw [h1] at h <;> simp at h

/-- Claim C3: each of the seven operation functions fails with the
`InvalidChatId` error exactly when the chat identifier fails
`validateChatId`; since a failing operation returns an error instead of a
built `Request`, the transport is never invoked in that case. -/
theorem operations_invalidChatId_characterization (chatId : ChatId)
    (t tok photo document : String) (mid : JsArg) (extra : Obj) :
    (sendMessage chatId t tok extra = .error (.invalidChatId (chatIdToString chatId)) ↔
       validateChatId chatId = false) ∧
    (editMessage chatId mid t tok extra = .error (.invalidChatId (chatIdToString chatId)) ↔
       validateChatId chatId = false) ∧
    (deleteMessage chatId mid tok = .error (.invalidChatId (chatIdToString chatId)) ↔
       validateChatId chatId = false) ∧
    (sendPhoto chatId photo tok extra = .error (.invalidChatId (chatIdToString chatId)) ↔
       validateChatId chatId = false) ∧
    (sendDocument chatId document tok extra = .error (.invalidChatId (chatIdToString chatId)) ↔
       validateChatId chatId = false) ∧
    (getChat chatId tok = .error (.invalidChatId (chatIdToString chatId)) ↔
       validateChatId chatId = false) ∧
    (getChatAdministrators chatId tok = .error (.invalidChatId (chatIdToString chatId)) ↔
       validateChatId chatId = false) := by
  rcases hv : validateChatId chatId with _ | _
  · refine ⟨?_, ?_, ?_, ?_, ?_, ?_, ?_⟩ <;>
      simp [sendMessage, editMessage, deleteMessage, sendPhoto, sendDocument, getChat,
        getChatAdministrators, hv]
  · refine ⟨?_, ?_, ?_, ?_, ?_, ?_, ?_⟩
    · exact ⟨fun h => absurd h (sendMessage_no_invalidChatId chatId t tok extra hv _),
        fun h => absurd h (by decide)⟩
    · exact ⟨fun h => absurd h (editMessage_no_invalidChatId chatId mid t tok extra hv _),
        fun h => absurd h (by decide)⟩
    · exact ⟨fun h => absurd h (deleteMessage_no_invalidChatId chatId mid tok hv _),
        fun h => absurd h (by decide)⟩
    · exact ⟨fun h => absurd h (sendPhoto_no_invalidChatId chatId photo tok extra hv _),
        fun h => absurd h (by decide)⟩
    · exact ⟨fun h => absurd h (sendDocument_no_invalidChatId chatId document tok extra hv _),
        fun h => absurd h (by decide)⟩
    · exact ⟨fun h => absurd h (getChat_no_invalidChatId chatId tok hv _),
        fun h => absurd h (by decide)⟩
    · exact ⟨fun h => absurd h (getChatAdministrators_no_invalidChatId chatId tok hv _),
        fun h => absurd h (by decide)⟩

theorem telegramApiRequest_ok_iff (m e : String) (b : Obj) (tok : String) :
    (∃ req, telegramApiRequest m e b tok = .ok req) ↔ validateBotToken tok = true := by
  unfold telegramApiRequest
  split
  · rename_i hf
    constructor
    · rintro ⟨req, hh⟩; cases hh
    · intro hvt
      exfalso
      unfold validateBotToken at hvt
      rw [if_pos hf] at hvt
      cases hvt
  · split
    · rename_i hvt
      constructor
      · rintro ⟨req, hh⟩; cases hh
      · intro h2
        rw [h2] at hvt
        cases hvt
    · rename_i h1 hvt
      constructor
      · intro _
        cases hb : validateBotToken tok
        · exact absurd hb hvt
        · rfl
      · intro _
        exact ⟨_, rfl⟩

theorem sendMessage_emptyText_iff (chatId : ChatId) (t tok : String) (extra : Obj) :
    sendMessage chatId t tok extra = .error .emptyText ↔
      (validateChatId chatId = true ∧ strFalsy (sanitizeText t) = true) := by
  rcases hv : validateChatId chatId with _ | _
  · simp [sendMessage, hv]
  · constructor
    · intro h
      simp only [sendMessage] at h
      rw [if_neg (by simp [hv])] at h
      split at h
      · rename_i he; exact ⟨rfl, he⟩
      · split at h
        · simp at h
        · rcases telegramApiRequest_cases "POST" "/sendMessage"
            ([("chat_id", chatIdVal chatId), ("text", Value.str (sanitizeText t))] ++ extra) tok
            with h1 | h1 | h1 <;> rw [h1] at h <;> simp at h
    · rintro ⟨_, he⟩
      simp only [sendMessage]
      rw [if_neg (by simp [hv]), if_pos he]

theorem sendMessage_textTooLong_iff (chatId : ChatId) (t tok : String) (extra : Obj) :
    sendMessage chatId t tok extra = .error (.textTooLong (sanitizeText t).length) ↔
      (validateChatId chatId = true ∧ strFalsy (sanitizeText t) = false ∧
        4096 < (sanitizeText t).length) := by
  rcases hv : validateChatId chatId with _ | _
  · simp [sendMessage, hv]
  · constructor
    · intro h
      simp only [sendMessage] at h
      rw [if_neg (by simp [hv])] at h
      split at h
      · simp at h
      · split at h
        · rename_i he hl
          exact ⟨rfl, by simpa using he, hl⟩
        · rcases telegramApiRequest_cases "POST" "/sendMessage"
            ([("chat_id", chatIdVal chatId), ("text", Value.str (sanitizeText t))] ++ extra) tok
            with h1 | h1 | h1 <;> rw [h1] at h <;> simp at h
    · rintro ⟨_, he, hl⟩
      simp only [sendMessage]
      rw [if_neg (by simp [hv]), if_neg (by simp [he]), if_pos hl]

theorem sendMessage_ok_iff (chatId : ChatId) (t tok : String) (extra : Obj) :
    (∃ req, sendMessage chatId t tok extra = .ok req) ↔
      (validateChatId chatId = true ∧ validateBotToken tok = true ∧
        strFalsy (sanitizeText t) = false ∧ (sanitizeText t).length ≤ 4096) := by
  rcases hv : validateChatId chatId with _ | _
  · simp [sendMessage, hv]
  · rcases he : strFalsy (sanitizeText t) with _ | _
    · by_cases hl : 4096 < (sanitizeText t).length
      · constructor
        · rintro ⟨req, h⟩
          simp only [sendMessage] at h
          rw [if_neg (by simp [hv]), if_neg (by simp [he]), if_pos hl] at h
          cases h
        · rintro ⟨_, _, _, hle⟩; omega
      · have hshape : sendMessage chatId t tok extra =
            telegramApiRequest "POST" "/sendMessage"
              ([("chat_id", chatIdVal chatId), ("text", Value.str (sanitizeText t))] ++ extra)
              tok := by
          simp only [sendMessage]
          rw [if_neg (by simp [hv]), if_neg (by simp [he]), if_neg hl]
        rw [hshape, telegramApiRequest_ok_iff]
        constructor
        · intro hvt; exact ⟨rfl, hvt, rfl, by omega⟩
        · rintro ⟨_, hvt, _, _⟩; exact hvt
    · constructor
      · rintro ⟨req, h⟩
        simp only [sendMessage] at h
        rw [if_neg (by simp [hv]), if_pos he] at h
        cases h
      · rintro ⟨_, _, he2, _⟩
        exact absurd he2 (by decide)

theorem editMessage_emptyText_iff (chatId : ChatId) (mid : JsArg) (t tok : String) (extra : Obj) :
    editMessage chatId mid t tok extra = .error .emptyText ↔
      (validateChatId chatId = true ∧ isValidMessageIdArg mid = true ∧
        strFalsy (sanitizeText t) = true) := by
  rcases hv : validateChatId chatId with _ | _
  · simp [editMessage, hv]
  · rcases hm : isValidMessageIdArg mid with _ | _
    · have hshape : editMessage chatId mid t tok extra = .error .invalidMessageId := by
        simp only [editMessage]
        rw [if_neg (by simp [hv]), if_pos hm]
      rw [hshape]
      simp
    · constructor
      · intro h
        simp only [editMessage] at h
        rw [if_neg (by simp [hv]), if_neg (by simp [hm])] at h
        split at h
        · rename_i he; exact ⟨rfl, rfl, he⟩
        · split at h
          · simp at h
          · rcases telegramApiRequest_cases "POST" "/editMessageText"
              ([("chat_id", chatIdVal chatId), ("message_id", jsArgVal mid),
                ("text", Value.str (sanitizeText t))] ++ extra) tok
              with h1 | h1 | h1 <;> rw [h1] at h <;> simp at h
      · rintro ⟨_, _, he⟩
        simp only [editMessage]
        rw [if_neg (by simp [hv]), if_neg (by simp [hm]), if_pos he]

theorem editMessage_textTooLong_iff (chatId : ChatId) (mid : JsArg) (t tok : String) (extra : Obj) :
    editMessage chatId mid t tok extra = .error (.textTooLong (sanitizeText t).length) ↔
      (validateChatId chatId = true ∧ isValidMessageIdArg mid = true ∧
        strFalsy (sanitizeText t) = false ∧ 4096 < (sanitizeText t).length) := by
  rcases hv : validateChatId chatId with _ | _
  · simp [editMessage, hv]
  · rcases hm : isValidMessageIdArg mid with _ | _
    · have hshape : editMessage chatId mid t tok extra = .error .invalidMessageId := by
        simp only [editMessage]
        rw [if_neg (by simp [hv]), if_pos hm]
      rw [hshape]
      simp
    · constructor
      · intro h
        simp only [editMessage] at h
        rw [if_neg (by simp [hv]), if_neg (by simp [hm])] at h
        split at h
        · simp at h
        · split at h
          · rename_i he hl
            exact ⟨rfl, rfl, by simpa using he, hl⟩
          · rcases telegramApiRequest_cases "POST" "/editMessageText"
              ([("chat_id", chatIdVal chatId), ("message_id", jsArgVal mid),
                ("text", Value.str (sanitizeText t))] ++ extra) tok
              with h1 | h1 | h1 <;> rw [h1] at h <;> simp at h
      · rintro ⟨_, _, he, hl⟩
        simp only [editMessage]
        rw [if_neg (by simp [hv]), if_neg (by simp [hm]), if_neg (by simp [he]), if_pos hl]

theorem editMessage_ok_iff (chatId : ChatId) (mid : JsArg) (t tok : String) (extra : Obj) :
    (∃ req, editMessage chatId mid t tok extra = .ok req) ↔
      (validateChatId chatId = true ∧ isValidMessageIdArg mid = true ∧
        validateBotToken tok = true ∧ strFalsy (sanitizeText t) = false ∧
        (sanitizeText t).length ≤ 4096) := by
  rcases hv : validateChatId chatId with _ | _
  · simp [editMessage, hv]
  · rcases hm : isValidMessageIdArg mid with _ | _
    · have hshape : editMessage chatId mid t tok extra = .error .invalidMessageId := by
        simp only [editMessage]
        rw [if_neg (by simp [hv]), if_pos hm]
      rw [hshape]
      simp
    · rcases he : strFalsy (sanitizeText t) with _ | _
      · by_cases hl : 4096 < (sanitizeText t).length
        · constructor
          · rintro ⟨req, h⟩
            simp only [editMessage] at h
            rw [if_neg (by simp [hv]), if_neg (by simp [hm]),
              if_neg (by simp [he]), if_pos hl] at h
            cases h
          · rintro ⟨_, _, _, _, hle⟩; omega
        · have hshape : editMessage chatId mid t tok extra =
              telegramApiRequest "POST" "/editMessageText"
                ([("chat_id", chatIdVal chatId), ("message_id", jsArgVal mid),
                  ("text", Value.str (sanitizeText t))] ++ extra) tok := by
            simp only [editMessage]
            rw [if_neg (by simp [hv]), if_neg (by simp [hm]), if_neg (by simp [he]), if_neg hl]
          rw [hshape, telegramApiRequest_ok_iff]
          constructor
          · intro hvt; exact ⟨rfl, rfl, hvt, rfl, by omega⟩
          · rintro ⟨_, _, hvt, _, _⟩; exact hvt
      · constructor
        · rintro ⟨req, h⟩
          simp only [editMessage] at h
          rw [if_neg (by simp [hv]), if_neg (by simp [hm]), if_pos he] at h
          cases h
        · rintro ⟨_, _, _, he2, _⟩
          exact absurd he2 (by decide)

/-- Claim C5: for `sendMessage` and `editMessage`, the call fails with
`EmptyText` exactly when the sanitized text is empty, fails with
`TextTooLong` exactly when the sanitized text exceeds 4096 characters (so an
exactly-4096-character sanitized text passes both checks), and otherwise — a
valid chat id (and, for edit, a valid message id and a valid token) — a
request is built.  Each equivalence also records the validity context in
which the check is reached. -/
theorem message_text_length_characterization (chatId : ChatId) (mid : JsArg)
    (t tok : String) (extra : Obj) :
    (sendMessage chatId t tok extra = .error .emptyText ↔
       (validateChatId chatId = true ∧ strFalsy (sanitizeText t) = true)) ∧
    (sendMessage chatId t tok extra = .error (.textTooLong (sanitizeText t).length) ↔
       (validateChatId chatId = true ∧ strFalsy (sanitizeText t) = false ∧
         4096 < (sanitizeText t).length)) ∧
    ((∃ req, sendMessage chatId t tok extra = .ok req) ↔
       (validateChatId chatId = true ∧ validateBotToken tok = true ∧
         strFalsy (sanitizeText t) = false ∧ (sanitizeText t).length ≤ 4096)) ∧
    (editMessage chatId mid t tok extra = .error .emptyText ↔
       (validateChatId chatId = true ∧ isValidMessageIdArg mid = true ∧
         strFalsy (sanitizeText t) = true)) ∧
    (editMessage chatId mid t tok extra = .error (.textTooLong (sanitizeText t).length) ↔
       (validateChatId chatId = true ∧ isValidMessageIdArg mid = true ∧
         strFalsy (sanitizeText t) = false ∧ 4096 < (sanitizeText t).length)) ∧
    ((∃ req, editMessage chatId mid t tok extra = .ok req) ↔
       (validateChatId chatId = true ∧ isValidMessageIdArg mid = true ∧
         validateBotToken tok = true ∧ strFalsy (sanitizeText t) = false ∧
         (sanitizeText t).length ≤ 4096)) :=
  ⟨sendMessage_emptyText_iff chatId t tok extra,
   sendMessage_textTooLong_iff chatId t tok extra,
   sendMessage_ok_iff chatId t tok extra,
   editMessage_emptyText_iff chatId mid t tok extra,
   editMessage_textTooLong_iff chatId mid t tok extra,
   editMessage_ok_iff chatId mid t tok extra⟩

theorem editMessage_invalidMessageId_iff (chatId : ChatId) (mid : JsArg) (t tok : String)
    (extra : Obj) :
    editMessage chatId mid t tok extra = .error .invalidMessageId ↔
      (validateChatId chatId = true ∧ isValidMessageIdArg mid = false) := by
  rcases hv : validateChatId chatId with _ | _
  · simp [editMessage, hv]
  · rcases hm : isValidMessageIdArg mid with _ | _
    · have hshape : editMessage chatId mid t tok extra = .error .invalidMessageId := by
        simp only [editMessage]
        rw [if_neg (by simp [hv]), if_pos hm]
      rw [hshape]
      simp
    · constructor
      · intro h
        simp only [editMessage] at h
        rw [if_neg (by simp [hv]), if_neg (by simp [hm])] at h
        split at h
        · simp at h
        · split at h
          · simp at h
          · rcases telegramApiRequest_cases "POST" "/editMessageText"
              ([("chat_id", chatIdVal chatId), ("message_id", jsArgVal mid),
                ("text", Value.str (sanitizeText t))] ++ extra) tok
              with h1 | h1 | h1 <;> rw [h1] at h <;> simp at h
      · rintro ⟨_, hm2⟩
        exact absurd hm2 (by decide)

theorem deleteMessage_invalidMessageId_iff (chatId : ChatId) (mid : JsArg) (tok : String) :
    deleteMessage chatId mid tok = .error .invalidMessageId ↔
      (validateChatId chatId = true ∧ isValidMessageIdArg mid = false) := by
  rcases hv : validateChatId chatId with _ | _
  · simp [deleteMessage, hv]
  · rcases hm : isValidMessageIdArg mid with _ | _
    · have hshape : deleteMessage chatId mid tok = .error .invalidMessageId := by
        simp only [deleteMessage]
        rw [if_neg (by simp [hv]), if_pos hm]
      rw [hshape]
      simp
    · constructor
      · intro h
        simp only [deleteMessage] at h
        rw [if_neg (by simp [hv]), if_neg (by simp [hm])] at h
        rcases telegramApiRequest_cases "POST" "/deleteMessage"
          [("chat_id", chatIdVal chatId), ("message_id", jsArgVal mid)] tok
          with h1 | h1 | h1 <;> rw [h1] at h <;> simp at h
      · rintro ⟨_, hm2⟩
        exact absurd hm2 (by decide)

/-- Claim C7 (counterexample): the claim says every present, numeric message
identifier passes the message-id check, but the source first rejects every
falsy `messageId`, and the number `0` is falsy in JavaScript, so editing or
deleting message `0` fails with `InvalidMessageId` even though `0` is a
present, numeric identifier. -/
theorem messageId_zero_counterexample :
    deleteMessage (ChatId.str "@validname") (JsArg.num 0)
        "123456789:abcDEF012345678901234567890123" = .error .invalidMessageId ∧
    editMessage (ChatId.str "@validname") (JsArg.num 0) "hi"
        "123456789:abcDEF012345678901234567890123" [] = .error .invalidMessageId :=
  ⟨rfl, rfl⟩

/-- Claim C7 (amended): for `editMessage` and `deleteMessage` with a valid
chat identifier, a present, numeric, nonzero message identifier passes the
message-id check, and a missing, non-numeric, or zero (falsy) identifier
fails with `InvalidMessageId`. -/
theorem messageId_characterization (chatId : ChatId) (mid : JsArg) (t tok : String)
    (extra : Obj) :
    (editMessage chatId mid t tok extra = .error .invalidMessageId ↔
       (validateChatId chatId = true ∧ isValidMessageIdArg mid = false)) ∧
    (deleteMessage chatId mid tok = .error .invalidMessageId ↔
       (validateChatId chatId = true ∧ isValidMessageIdArg mid = false)) ∧
    (isValidMessageIdArg mid = true ↔ ∃ n : Int, mid = JsArg.num n ∧ n ≠ 0) := by
  refine ⟨editMessage_invalidMessageId_iff chatId mid t tok extra,
    deleteMessage_invalidMessageId_iff chatId mid tok, ?_⟩
  cases mid with
  | num n =>
    by_cases h : n = 0
    · subst h; simp [isValidMessageIdArg]
    · simp [isValidMessageIdArg, h]
  | str s => simp [isValidMessageIdArg]
  | missing => simp [isValidMessageIdArg]

theorem getKey_cons (k' : String) (v : Value) (rest : Obj) (key : String) :
    getKey ((k', v) :: rest) key =
      match getKey rest key with
      | some w => some w
      | none => if k' = key then some v else none := rfl

theorem getKey_append (a b : Obj) (k : String) :
    getKey (a ++ b) k =
      match getKey b k with
      | some w => some w
      | none => getKey a k := by
  induction a with
  | nil =>
    simp only [List.nil_append]
    cases h : getKey b k <;> simp [getKey]
  | cons p a ih =>
    obtain ⟨k', v⟩ := p
    rw [List.cons_append, getKey_cons, ih, getKey_cons]
    cases h : getKey b k <;> cases h2 : getKey a k <;> simp

theorem getKey_map_set (o : Obj) (k : String) (v : Value) :
    getKey (o.map (fun p => if p.1 == k then (k, v) else p)) k =
      (getKey o k).map (fun _ => v) := by
  induction o with
  | nil => rfl
  | cons p o ih =>
    obtain ⟨k', w⟩ := p
    simp only [List.map_cons]
    by_cases h : k' = k
    · rw [if_pos (by simp [h])]
      rw [getKey_cons, getKey_cons, ih]
      cases hg : getKey o k <;> simp [hg, h]
    · rw [if_neg (by simpa using h)]
      rw [getKey_cons, getKey_cons, ih]
      cases hg : getKey o k <;> simp [hg, h]

theorem getKey_ne_none_of_any (o : Obj) (k : String)
    (h : o.any (fun p => p.1 == k) = true) : getKey o k ≠ none := by
  induction o with
  | nil => cases h
  | cons p o ih =>
    obtain ⟨k', w⟩ := p
    rw [getKey_cons]
    have h' := h
    rw [List.any_cons, Bool.or_eq_true] at h'
    cases hg : getKey o k with
    | some u => simp
    | none =>
      rcases h' with hh | hh
      · simp only [beq_iff_eq] at hh
        simp [hg, hh]
      · exact absurd hg (ih hh)

theorem getKey_setKey_self (o : Obj) (k : String) (v : Value) :
    getKey (setKey o k v) k = some v := by
  unfold setKey
  split
  · rename_i hany
    rw [getKey_map_set]
    cases hg : getKey o k with
    | some u => rfl
    | none => exact absurd hg (getKey_ne_none_of_any o k hany)
  · rw [getKey_append]
    simp [getKey]

theorem strFalsy_eq_empty (s : String) (h : strFalsy s = true) : s = "" := by
  unfold strFalsy at h
  cases s with
  | mk data =>
    cases data with
    | nil => rfl
    | cons c cs => cases h

theorem sendPhoto_caption_shape (chatId : ChatId) (photo tok cap : String) (extra : Obj)
    (hv : validateChatId chatId = true) (hp : strFalsy photo = false)
    (hc : getKey extra "caption" = some (Value.str cap)) :
    sendPhoto chatId photo tok extra =
      (if strFalsy cap then
        telegramApiRequest "POST" "/sendPhoto"
          ([("chat_id", chatIdVal chatId), ("photo", Value.str photo)] ++ extra) tok
      else if 1024 < (sanitizeText cap).length then
        .error (.captionTooLong "Photo" (sanitizeText cap).length)
      else
        telegramApiRequest "POST" "/sendPhoto"
          (setKey ([("chat_id", chatIdVal chatId), ("photo", Value.str photo)] ++ extra)
            "caption" (Value.str (sanitizeText cap))) tok) := by
  have hbody : getKey ([("chat_id", chatIdVal chatId), ("photo", Value.str photo)] ++ extra)
      "caption" = some (Value.str cap) := by
    rw [getKey_append, hc]
  simp only [sendPhoto]
  rw [if_neg (by simp [hv]), if_neg (by simp [hp]), hbody]

theorem sendDocument_caption_shape (chatId : ChatId) (document tok cap : String) (extra : Obj)
    (hv : validateChatId chatId = true) (hd : strFalsy document = false)
    (hc : getKey extra "caption" = some (Value.str cap)) :
    sendDocument chatId document tok extra =
      (if strFalsy cap then
        telegramApiRequest "POST" "/sendDocument"
          ([("chat_id", chatIdVal chatId), ("document", Value.str document)] ++ extra) tok
      else if 1024 < (sanitizeText cap).length then
        .error (.captionTooLong "Document" (sanitizeText cap).length)
      else
        telegramApiRequest "POST" "/sendDocument"
          (setKey ([("chat_id", chatIdVal chatId), ("document", Value.str document)] ++ extra)
            "caption" (Value.str (sanitizeText cap))) tok) := by
  have hbody : getKey
      ([("chat_id", chatIdVal chatId), ("document", Value.str document)] ++ extra)
      "caption" = some (Value.str cap) := by
    rw [getKey_append, hc]
  simp only [sendDocument]
  rw [if_neg (by simp [hv]), if_neg (by simp [hd]), hbody]

/-- Claim C6: for `sendPhoto` and `sendDocument` with a valid chat id and a
non-empty media reference, a supplied string caption is sanitized before
being sent (the built body carries the sanitized caption), and the call
fails with `CaptionTooLong` exactly when the sanitized caption exceeds 1024
characters; at 1024 characters or fewer (and a valid token) a request is
built. -/
theorem caption_characterization (chatId : ChatId) (photo document tok cap : String)
    (extra : Obj)
    (hv : validateChatId chatId = true)
    (hp : strFalsy photo = false)
    (hd : strFalsy document = false)
    (hc : getKey extra "caption" = some (Value.str cap)) :
    (sendPhoto chatId photo tok extra =
        .error (.captionTooLong "Photo" (sanitizeText cap).length) ↔
      1024 < (sanitizeText cap).length) ∧
    (sendDocument chatId document tok extra =
        .error (.captionTooLong "Document" (sanitizeText cap).length) ↔
      1024 < (sanitizeText cap).length) ∧
    (∀ req, sendPhoto chatId photo tok extra = .ok req →
      getKey req.body "caption" = some (Value.str (sanitizeText cap))) ∧
    (∀ req, sendDocument chatId document tok extra = .ok req →
      getKey req.body "caption" = some (Value.str (sanitizeText cap))) ∧
    (validateBotToken tok = true → (sanitizeText cap).length ≤ 1024 →
      (∃ req, sendPhoto chatId photo tok extra = .ok req) ∧
      (∃ req, sendDocument chatId document tok extra = .ok req)) := by
  have hsp := sendPhoto_caption_shape chatId photo tok cap extra hv hp hc
  have hsd := sendDocument_caption_shape chatId document tok cap extra hv hd hc
  refine ⟨?_, ?_, ?_, ?_, ?_⟩
  · rw [hsp]
    rcases hcap : strFalsy cap with _ | _
    · rw [if_neg (by simp [hcap])]
      by_cases hl : 1024 < (sanitizeText cap).length
      · rw [if_pos hl]; simp [hl]
      · rw [if_neg hl]
        constructor
        · intro h
          rcases telegramApiRequest_cases "POST" "/sendPhoto"
            (setKey ([("chat_id", chatIdVal chatId), ("photo", Value.str photo)] ++ extra)
              "caption" (Value.str (sanitizeText cap))) tok
            with h1 | h1 | h1 <;> rw [h1] at h <;> simp at h
        · intro h; exact absurd h hl
    · rw [if_pos rfl]
      have hcap0 : sanitizeText cap = "" := by
        rw [strFalsy_eq_empty cap hcap]; rfl
      constructor
      · intro h
        rcases telegramApiRequest_cases "POST" "/sendPhoto"
          ([("chat_id", chatIdVal chatId), ("photo", Value.str photo)] ++ extra) tok
          with h1 | h1 | h1 <;> rw [h1] at h <;> simp at h
      · intro h
        rw [hcap0] at h
        exact absurd h (by decide)
  · rw [hsd]
    rcases hcap : strFalsy cap with _ | _
    · rw [if_neg (by simp [hcap])]
      by_cases hl : 1024 < (sanitizeText cap).length
      · rw [if_pos hl]; simp [hl]
      · rw [if_neg hl]
        constructor
        · intro h
          rcases telegramApiRequest_cases "POST" "/sendDocument"
            (setKey ([("chat_id", chatIdVal chatId), ("document", Value.str document)] ++ extra)
              "caption" (Value.str (sanitizeText cap))) tok
            with h1 | h1 | h1 <;> rw [h1] at h <;> simp at h
        · intro h; exact absurd h hl
    · rw [if_pos rfl]
      have hcap0 : sanitizeText cap = "" := by
        rw [strFalsy_eq_empty cap hcap]; rfl
      constructor
      · intro h
        rcases telegramApiRequest_cases "POST" "/sendDocument"
          ([("chat_id", chatIdVal chatId), ("document", Value.str document)] ++ extra) tok
          with h1 | h1 | h1 <;> rw [h1] at h <;> simp at h
      · intro h
        rw [hcap0] at h
        exact absurd h (by decide)
  · intro req h
    rw [hsp] at h
    rcases hcap : strFalsy cap with _ | _
    · rw [if_neg (by simp [hcap])] at h
      by_cases hl : 1024 < (sanitizeText cap).length
      · rw [if_pos hl] at h; cases h
      · rw [if_neg hl] at h
        rcases telegramApiRequest_cases "POST" "/sendPhoto"
          (setKey ([("chat_id", chatIdVal chatId), ("photo", Value.str photo)] ++ extra)
            "caption" (Value.str (sanitizeText cap))) tok
          with h1 | h1 | h1 <;> rw [h1] at h
        · cases h
        · cases h
        · injection h with h2
          rw [← h2]
          exact getKey_setKey_self _ "caption" _
    · rw [if_pos hcap] at h
      rcases telegramApiRequest_cases "POST" "/sendPhoto"
        ([("chat_id", chatIdVal chatId), ("photo", Value.str photo)] ++ extra) tok
        with h1 | h1 | h1 <;> rw [h1] at h
      · cases h
      · cases h
      · injection h with h2
        rw [← h2]
        have hce : cap = "" := strFalsy_eq_empty cap hcap
        have hcap0 : sanitizeText cap = cap := by rw [hce]; rfl
        rw [hcap0, getKey_append, hc]
  · intro req h
    rw [hsd] at h
    rcases hcap : strFalsy cap with _ | _
    · rw [if_neg (by simp [hcap])] at h
      by_cases hl : 1024 < (sanitizeText cap).length
      · rw [if_pos hl] at h; cases h
      · rw [if_neg hl] at h
        rcases telegramApiRequest_cases "POST" "/sendDocument"
          (setKey ([("chat_id", chatIdVal chatId), ("document", Value.str document)] ++ extra)
            "caption" (Value.str (sanitizeText cap))) tok
          with h1 | h1 | h1 <;> rw [h1] at h
        · cases h
        · cases h
        · injection h with h2
          rw [← h2]
          exact getKey_setKey_self _ "caption" _
    · rw [if_pos hcap] at h
      rcases telegramApiRequest_cases "POST" "/sendDocument"
        ([("chat_id", chatIdVal chatId), ("document", Value.str document)] ++ extra) tok
        with h1 | h1 | h1 <;> rw [h1] at h
      · cases h
      · cases h
      · injection h with h2
        rw [← h2]
        have hce : cap = "" := strFalsy_eq_empty cap hcap
        have hcap0 : sanitizeText cap = cap := by rw [hce]; rfl
        rw [hcap0, getKey_append, hc]
  · intro hvt hle
    constructor
    · rw [hsp]
      rcases hcap : strFalsy cap with _ | _
      · rw [if_neg (by simp [hcap]), if_neg (by omega)]
        exact (telegramApiRequest_ok_iff "POST" "/sendPhoto" _ tok).mpr hvt
      · rw [if_pos rfl]
        exact (telegramApiRequest_ok_iff "POST" "/sendPhoto" _ tok).mpr hvt
    · rw [hsd]
      rcases hcap : strFalsy cap with _ | _
      · rw [if_neg (by simp [hcap]), if_neg (by omega)]
        exact (telegramApiRequest_ok_iff "POST" "/sendDocument" _ tok).mpr hvt
      · rw [if_pos rfl]
        exact (telegramApiRequest_ok_iff "POST" "/sendDocument" _ tok).mpr hvt

/-- Witness for claim C6: the caption characterization applied to a concrete
valid chat, media reference and caption. -/
theorem caption_characterization_witness :
    validateChatId (ChatId.str "@abcde") = true ∧
    strFalsy "p" = false ∧
    strFalsy "d" = false ∧
    getKey [("caption", Value.str "hi")] "caption" = some (Value.str "hi") ∧
    ((sendPhoto (ChatId.str "@abcde") "p" "123456789:abcDEF012345678901234567890123"
        [("caption", Value.str "hi")] =
        .error (.captionTooLong "Photo" (sanitizeText "hi").length) ↔
      1024 < (sanitizeText "hi").length) ∧
    (sendDocument (ChatId.str "@abcde") "d" "123456789:abcDEF012345678901234567890123"
        [("caption", Value.str "hi")] =
        .error (.captionTooLong "Document" (sanitizeText "hi").length) ↔
      1024 < (sanitizeText "hi").length) ∧
    (∀ req, sendPhoto (ChatId.str "@abcde") "p" "123456789:abcDEF012345678901234567890123"
        [("caption", Value.str "hi")] = .ok req →
      getKey req.body "caption" = some (Value.str (sanitizeText "hi"))) ∧
    (∀ req, sendDocument (ChatId.str "@abcde") "d" "123456789:abcDEF012345678901234567890123"
        [("caption", Value.str "hi")] = .ok req →
      getKey req.body "caption" = some (Value.str (sanitizeText "hi"))) ∧
    (validateBotToken "123456789:abcDEF012345678901234567890123" = true →
      (sanitizeText "hi").length ≤ 1024 →
      (∃ req, sendPhoto (ChatId.str "@abcde") "p" "123456789:abcDEF012345678901234567890123"
        [("caption", Value.str "hi")] = .ok req) ∧
      (∃ req, sendDocument (ChatId.str "@abcde") "d" "123456789:abcDEF012345678901234567890123"
        [("caption", Value.str "hi")] = .ok req))) :=
  ⟨by decide, by decide, by decide, by decide,
   caption_characterization (ChatId.str "@abcde") "p" "d"
     "123456789:abcDEF012345678901234567890123" "hi" [("caption", Value.str "hi")]
     (by decide) (by decide) (by decide) (by decide)⟩

/-- Claim C2 (counterexample): the claim says caller-supplied additional
fields never override the computed `chat_id`, but the source spreads the
additional fields after the computed fields, so a caller-supplied `chat_id`
wins: the built body carries `@attacker`, not the validated `@abcde`. -/
theorem additionalFields_override_counterexample :
    builtChatId (sendMessage (ChatId.str "@abcde") "hi"
        "123456789:abcDEF012345678901234567890123" [("chat_id", Value.str "@attacker")]) =
      some (Value.str "@attacker") ∧
    builtChatId (sendMessage (ChatId.str "@abcde") "hi"
        "123456789:abcDEF012345678901234567890123" [("chat_id", Value.str "@attacker")]) ≠
      some (chatIdVal (ChatId.str "@abcde")) :=
  ⟨by decide, by decide⟩

/-- Claim C2 (amended): in `sendMessage` and `editMessage` the additional
fields are spread after the computed fields, so for the keys `chat_id`,
`text` and `message_id` a caller-supplied value overrides the
function-computed one in the built body, and the computed value is carried
only when the caller does not supply the key. -/
theorem merge_order_characterization (chatId : ChatId) (mid : JsArg) (t tok : String)
    (extra : Obj) (req req2 : Request)
    (h1 : sendMessage chatId t tok extra = .ok req)
    (h2 : editMessage chatId mid t tok extra = .ok req2) :
    getKey req.body "chat_id" = some ((getKey extra "chat_id").getD (chatIdVal chatId)) ∧
    getKey req.body "text" = some ((getKey extra "text").getD (Value.str (sanitizeText t))) ∧
    getKey req2.body "chat_id" = some ((getKey extra "chat_id").getD (chatIdVal chatId)) ∧
    getKey req2.body "message_id" = some ((getKey extra "message_id").getD (jsArgVal mid)) ∧
    getKey req2.body "text" = some ((getKey extra "text").getD (Value.str (sanitizeText t))) := by
  have hb1 : req.body =
      [("chat_id", chatIdVal chatId), ("text", Value.str (sanitizeText t))] ++ extra := by
    simp only [sendMessage] at h1
    split at h1
    · cases h1
    · split at h1
      · cases h1
      · split at h1
        · cases h1
        · unfold telegramApiRequest at h1
          split at h1
          · cases h1
          · split at h1
            · cases h1
            · injection h1 with h
              rw [← h]
  have hb2 : req2.body =
      [("chat_id", chatIdVal chatId), ("message_id", jsArgVal mid),
        ("text", Value.str (sanitizeText t))] ++ extra := by
    simp only [editMessage] at h2
    split at h2
    · cases h2
    · split at h2
      · cases h2
      · split at h2
        · cases h2
        · split at h2
          · cases h2
          · unfold telegramApiRequest at h2
            split at h2
            · cases h2
            · split at h2
              · cases h2
              · injection h2 with h
                rw [← h]
  refine ⟨?_, ?_, ?_, ?_, ?_⟩
  · rw [hb1, getKey_append]
    cases hg : getKey extra "chat_id" <;> simp [hg, getKey]
  · rw [hb1, getKey_append]
    cases hg : getKey extra "text" <;> simp [hg, getKey]
  · rw [hb2, getKey_append]
    cases hg : getKey extra "chat_id" <;> simp [hg, getKey]
  · rw [hb2, getKey_append]
    cases hg : getKey extra "message_id" <;> simp [hg, getKey]
  · rw [hb2, getKey_append]
    cases hg : getKey extra "text" <;> simp [hg, getKey]

/-- Witness for claim C2 (amended): the merge-order characterization applied
to a successful concrete send and edit whose additional fields carry a
`chat_id` override. -/
theorem merge_order_witness :
    sendMessage (ChatId.str "@abcde") "hi" "123456789:abcDEF012345678901234567890123"
        [("chat_id", Value.str "@attacker")] =
      .ok { method := "POST",
            url := "https://api.telegram.org/bot" ++
              "123456789:abcDEF012345678901234567890123" ++ "/sendMessage",
            body := [("chat_id", Value.str "@abcde"), ("text", Value.str "hi"),
                     ("chat_id", Value.str "@attacker")] } ∧
    editMessage (ChatId.str "@abcde") (JsArg.num 5) "hi"
        "123456789:abcDEF012345678901234567890123" [("chat_id", Value.str "@attacker")] =
      .ok { method := "POST",
            url := "https://api.telegram.org/bot" ++
              "123456789:abcDEF012345678901234567890123" ++ "/editMessageText",
            body := [("chat_id", Value.str "@abcde"), ("message_id", Value.int 5),
                     ("text", Value.str "hi"), ("chat_id", Value.str "@attacker")] } ∧
    (getKey [("chat_id", Value.str "@abcde"), ("text", Value.str "hi"),
        ("chat_id", Value.str "@attacker")] "chat_id" =
      some ((getKey [("chat_id", Value.str "@attacker")] "chat_id").getD
        (chatIdVal (ChatId.str "@abcde")))) ∧
    (getKey [("chat_id", Value.str "@abcde"), ("text", Value.str "hi"),
        ("chat_id", Value.str "@attacker")] "text" =
      some ((getKey [("chat_id", Value.str "@attacker")] "text").getD
        (Value.str (sanitizeText "hi")))) ∧
    (getKey [("chat_id", Value.str "@abcde"), ("message_id", Value.int 5),
        ("text", Value.str "hi"), ("chat_id", Value.str "@attacker")] "chat_id" =
      some ((getKey [("chat_id", Value.str "@attacker")] "chat_id").getD
        (chatIdVal (ChatId.str "@abcde")))) ∧
    (getKey [("chat_id", Value.str "@abcde"), ("message_id", Value.int 5),
        ("text", Value.str "hi"), ("chat_id", Value.str "@attacker")] "message_id" =
      some ((getKey [("chat_id", Value.str "@attacker")] "message_id").getD
        (jsArgVal (JsArg.num 5)))) ∧
    (getKey [("chat_id", Value.str "@abcde"), ("message_id", Value.int 5),
        ("text", Value.str "hi"), ("chat_id", Value.str "@attacker")] "text" =
      some ((getKey [("chat_id", Value.str "@attacker")] "text").getD
        (Value.str (sanitizeText "hi")))) := by
  refine ⟨rfl, rfl, ?_⟩
  have h := merge_order_characterization (ChatId.str "@abcde") (JsArg.num 5) "hi"
    "123456789:abcDEF012345678901234567890123" [("chat_id", Value.str "@attacker")]
    { method := "POST",
      url := "https://api.telegram.org/bot" ++
        "123456789:abcDEF012345678901234567890123" ++ "/sendMessage",
      body := [("chat_id", Value.str "@abcde"), ("text", Value.str "hi"),
               ("chat_id", Value.str "@attacker")] }
    { method := "POST",
      url := "https://api.telegram.org/bot" ++
        "123456789:abcDEF012345678901234567890123" ++ "/editMessageText",
      body := [("chat_id", Value.str "@abcde"), ("message_id", Value.int 5),
               ("text", Value.str "hi"), ("chat_id", Value.str "@attacker")] }
    rfl rfl
  exact h

theorem executeLoop_continue (tr : Request → Except TgError Obj) (i : Nat)
    (items : List Item) :
    executeLoop tr true i items = .ok (batchOut tr i items) := by
  induction items generalizing i with
  | nil => rfl
  | cons it rest ih =>
    simp only [executeLoop, batchOut, recordFor]
    cases h : processItem tr it <;> simp [h, ih]

theorem batchOut_length (tr : Request → Except TgError Obj) (i : Nat) (items : List Item) :
    (batchOut tr i items).length = items.length := by
  induction items generalizing i with
  | nil => rfl
  | cons it rest ih => simp [batchOut, ih]

theorem batchOut_get? (tr : Request → Except TgError Obj) (i k : Nat) (items : List Item) :
    (batchOut tr i items).get? k = (items.get? k).map (fun it => recordFor tr (i + k) it) := by
  induction items generalizing i k with
  | nil => simp [batchOut]
  | cons it rest ih =>
    cases k with
    | zero => simp [batchOut]
    | succ k =>
      simp only [batchOut, List.get?_cons_succ, ih]
      have harith : i + 1 + k = i + (k + 1) := by omega
      rw [harith]

theorem executeLoop_abort (tr : Request → Except TgError Obj) (i : Nat) (items : List Item) :
    executeLoop tr false i items =
      (match firstFailure tr items with
       | none => .ok (batchOut tr i items)
       | some e => .error e) := by
  induction items generalizing i with
  | nil => rfl
  | cons it rest ih =>
    simp only [executeLoop, firstFailure, batchOut, recordFor]
    cases h : processItem tr it with
    | ok data =>
      rw [ih]
      cases hf : firstFailure tr rest <;> simp [h, hf]
    | error e => simp [h]

/-- Claim C4: with continue-on-failure enabled, `execute` emits exactly one
record per input item, in input order: the item at index `k` contributes the
API response on success and the `{ error: <message> }` record on failure, at
its own position (`recordFor`), and the records at the other positions are
exactly what the same items produce on their own.  With continue-on-failure
disabled, `execute` propagates the first per-item failure, aborting the
remaining batch. -/
theorem execute_batch_shape (tr : Request → Except TgError Obj) (items : List Item) :
    execute tr true items = .ok (batchOut tr 0 items) ∧
    (batchOut tr 0 items).length = items.length ∧
    (∀ k, (batchOut tr 0 items).get? k = (items.get? k).map (fun it => recordFor tr k it)) ∧
    execute tr false items =
      (match firstFailure tr items with
       | none => .ok (batchOut tr 0 items)
       | some e => .error e) := by
  refine ⟨executeLoop_continue tr 0 items, batchOut_length tr 0 items, ?_,
    executeLoop_abort tr 0 items⟩
  intro k
  simpa using batchOut_get? tr 0 k items

/-- Claim C10: an input record whose resource/operation pair is none of the
seven handled combinations, but whose token resolves and validates, produces
a success record whose json payload is the empty object: `responseData`
keeps its initial `{}` and no error is raised. -/
theorem execute_unhandled_pair (tr : Request → Except TgError Obj) (it : Item) (tok : String)
    (hres : resolveToken it = .ok tok)
    (hne : strFalsy tok = false)
    (hval : validateBotToken tok = true)
    (hpair : handledPair it.resource it.operation = false) :
    processItem tr it = .ok [] := by
  unfold processItem
  simp only [hres]
  rw [if_neg (by simp [hne]), if_neg (by simp [hval])]
  unfold runOperation
  by_cases h1 : it.resource == "message"
  · rw [if_pos h1]
    have e1 : it.resource = "message" := by simpa using h1
    by_cases h2 : it.operation == "send"
    · exfalso
      have e2 : it.operation = "send" := by simpa using h2
      simp [handledPair, e1, e2] at hpair
    · rw [if_neg h2]
      by_cases h3 : it.operation == "edit"
      · exfalso
        have e3 : it.operation = "edit" := by simpa using h3
        simp [handledPair, e1, e3] at hpair
      · rw [if_neg h3]
        by_cases h4 : it.operation == "delete"
        · exfalso
          have e4 : it.operation = "delete" := by simpa using h4
          simp [handledPair, e1, e4] at hpair
        · rw [if_neg h4]
  · rw [if_neg h1]
    by_cases h5 : it.resource == "photo"
    · rw [if_pos h5]
      have e5 : it.resource = "photo" := by simpa using h5
      by_cases h6 : it.operation == "send"
      · exfalso
        have e6 : it.operation = "send" := by simpa using h6
        simp [handledPair, e5, e6] at hpair
      · rw [if_neg h6]
    · rw [if_neg h5]
      by_cases h7 : it.resource == "document"
      · rw [if_pos h7]
        have e7 : it.resource = "document" := by simpa using h7
        by_cases h8 : it.operation == "send"
        · exfalso
          have e8 : it.operation = "send" := by simpa using h8
          simp [handledPair, e7, e8] at hpair
        · rw [if_neg h8]
      · rw [if_neg h7]
        by_cases h9 : it.resource == "chat"
        · rw [if_pos h9]
          have e9 : it.resource = "chat" := by simpa using h9
          by_cases h10 : it.operation == "get"
          · exfalso
            have e10 : it.operation = "get" := by simpa using h10
            simp [handledPair, e9, e10] at hpair
          · rw [if_neg h10]
            by_cases h11 : it.operation == "getAdministrators"
            · exfalso
              have e11 : it.operation = "getAdministrators" := by simpa using h11
              simp [handledPair, e9, e11] at hpair
            · rw [if_neg h11]
        · rw [if_neg h9]

/-- Witness for claim C10: a concrete item with a valid direct token and the
unhandled pair message/forward produces the empty-object success record. -/
theorem execute_unhandled_pair_witness :
    resolveToken itemW = .ok "123456789:abcDEF012345678901234567890123" ∧
    strFalsy "123456789:abcDEF012345678901234567890123" = false ∧
    validateBotToken "123456789:abcDEF012345678901234567890123" = true ∧
    handledPair itemW.resource itemW.operation = false ∧
    processItem (fun _ => .ok []) itemW = .ok [] := by
  refine ⟨rfl, by decide, by decide, by decide, ?_⟩
  exact execute_unhandled_pair (fun _ => .ok []) itemW
    "123456789:abcDEF012345678901234567890123" rfl (by decide) (by decide) (by decide)
